import Mathlib

/-!
Verification of the world-editor UI store
(`src/ext/sdk/resources/sdk-root/shell/src/personalities/WorldEditorPersonality/store/WEState.ts`).

The store is shallowly embedded as a record of its observable fields together
with operations returning the updated record and the list of externally visible
effects (game-client events, API-transport messages, event-bus emissions,
shell-personality switches) in the order the source performs them.  JavaScript
numbers are modelled as integers, `JSON.stringify` as a small executable JSON
renderer, and a call on an absent (`undefined`) input controller as `Option.none`
(the thrown `TypeError`).
-/

/-- JSON values, modelling the data handed to `JSON.stringify` in the source.
Numbers are modelled as integers (every number the file serializes is an
integer-valued camera coordinate or enum tag). -/
inductive JVal where
  | num (n : Int)
  | str (s : String)
  | arr (elems : List JVal)
  | obj (fields : List (String × JVal))

/-- Escape of one character inside a JSON string literal (quote and backslash;
the payloads in this file contain no control characters). -/
def jsonEscapeChar (c : Char) : String :=
  if c = '\"' then "\\\"" else if c = '\\' then "\\\\" else String.singleton c

/-- Escape of a string for inclusion in a JSON string literal. -/
def jsonEscape (s : String) : String :=
  String.join (s.toList.map jsonEscapeChar)

mutual

/-- Rendering of a JSON value to its serialized text, modelling `JSON.stringify`. -/
def JVal.render : JVal → String
  | JVal.num n => toString n
  | JVal.str s => "\"" ++ jsonEscape s ++ "\""
  | JVal.arr xs => "[" ++ renderElems xs ++ "]"
  | JVal.obj fs => "\x7b" ++ renderFields fs ++ "\x7d"

/-- Comma-separated rendering of JSON array elements. -/
def renderElems : List JVal → String
  | [] => ""
  | [x] => JVal.render x
  | x :: y :: xs => JVal.render x ++ "," ++ renderElems (y :: xs)

/-- Comma-separated rendering of JSON object fields. -/
def renderFields : List (String × JVal) → String
  | [] => ""
  | [(k, v)] => "\"" ++ jsonEscape k ++ "\":" ++ JVal.render v
  | (k, v) :: f :: fs =>
      "\"" ++ jsonEscape k ++ "\":" ++ JVal.render v ++ "," ++ renderFields (f :: fs)

end

/-- The result of `JSON.stringify` as a value: a JSON string holding the
serialized text of its argument. -/
def jsStringify (v : JVal) : JVal :=
  JVal.str (JVal.render v)

/-- Modelled from the spec: the selection tag enumeration `WESelectionType`
(imported by the source from `backend/world-editor/world-editor-types`, which is
outside the repository slice).  The spec describes the selection as "a tagged
variant describing what map element (none / addition / patch) is currently
highlighted". -/
inductive WESelectionType where
  | NONE
  | ADDITION
  | PATCH
deriving DecidableEq

/-- Numeric value of a selection tag (TypeScript numeric enum, in declaration
order), used when a selection is serialized to JSON. -/
def WESelectionType.tag : WESelectionType → Int
  | WESelectionType.NONE => 0
  | WESelectionType.ADDITION => 1
  | WESelectionType.PATCH => 2

/-- Modelled from the spec: the `WESelection` tagged variant (imported by the
source from `backend/world-editor/world-editor-types`).  The variant's fields
are those the source reads: `id` on an addition selection, `mapdata` and
`entity` on a patch selection. -/
inductive WESelection where
  | none
  | addition (id : String)
  | patch (mapdata entity : Int)
deriving DecidableEq

/-- The tag of a selection value. -/
def WESelection.selType : WESelection → WESelectionType
  | WESelection.none => WESelectionType.NONE
  | WESelection.addition _ => WESelectionType.ADDITION
  | WESelection.patch _ _ => WESelectionType.PATCH

/-- The `id` field of a selection, meaningful only on the addition variant. -/
def WESelection.idOf : WESelection → Option String
  | WESelection.addition id => some id
  | _ => Option.none

/-- The `mapdata` field of a selection, meaningful only on the patch variant. -/
def WESelection.mapdataOf : WESelection → Option Int
  | WESelection.patch mapdata _ => some mapdata
  | _ => Option.none

/-- The `entity` field of a selection, meaningful only on the patch variant. -/
def WESelection.entityOf : WESelection → Option Int
  | WESelection.patch _ entity => some entity
  | _ => Option.none

/-- The JSON object a selection value serializes to (field layout of the
`WESelection` variant). -/
def selectionToJVal : WESelection → JVal
  | WESelection.none => JVal.obj [("type", JVal.num (WESelectionType.tag WESelectionType.NONE))]
  | WESelection.addition id =>
      JVal.obj [("type", JVal.num (WESelectionType.tag WESelectionType.ADDITION)),
                ("id", JVal.str id)]
  | WESelection.patch mapdata entity =>
      JVal.obj [("type", JVal.num (WESelectionType.tag WESelectionType.PATCH)),
                ("mapdata", JVal.num mapdata),
                ("entity", JVal.num entity)]

/-- JavaScript `parseInt(s, 10)`: skip leading whitespace, read an optional
sign, then the longest prefix of decimal digits; the result is `Option.none`
when no digit is found (JavaScript `NaN`). -/
def jsParseInt (s : String) : Option Int :=
  let cs := s.toList.dropWhile (fun c => c.isWhitespace)
  let signed : Bool × List Char :=
    match cs with
    | '-' :: rest => (true, rest)
    | '+' :: rest => (false, rest)
    | _ => (false, cs)
  let digits := signed.2.takeWhile (fun c => c.isDigit)
  if digits.isEmpty then
    Option.none
  else
    let n : Nat := digits.foldl (fun acc c => acc * 10 + (c.toNat - '0'.toNat)) 0
    some (if signed.1 then -(n : Int) else (n : Int))

/-- JavaScript strict equality `n === p` between a number and a `parseInt`
result: false when the result is `NaN` (`Option.none`), numeric comparison
otherwise. -/
def jsStrictEq (n : Int) (p : Option Int) : Bool :=
  match p with
  | some m => n == m
  | Option.none => false

/-- The two editor shell modes (`WEMode` enum in the source). -/
inductive WEMode where
  | EDITOR
  | PLAYTEST
deriving DecidableEq

/-- The three gizmo editor modes (`EditorMode` enum in the source). -/
inductive EditorMode where
  | TRANSLATE
  | ROTATE
  | SCALE
deriving DecidableEq

/-- Modelled from the spec: the two shell personalities the source switches
between (`ShellPersonality` is imported from `store/ShellState`, outside the
repository slice). -/
inductive ShellPersonality where
  | THEIA
  | WORLD_EDITOR
deriving DecidableEq

/-- Modelled from the spec: a filesystem entry (`FilesystemEntry` from
`shared/api.types`, outside the repository slice); the source reads its `name`
and `path`. -/
structure FilesystemEntry where
  name : String
  path : String
deriving DecidableEq

/-- Modelled from the spec: a serialized world-editor map (`WEMap` from
`backend/world-editor/world-editor-types`, outside the repository slice); its
contents are opaque to this file. -/
structure WEMap where
  raw : String
deriving DecidableEq

/-- Modelled from the spec: the map view-state wrapper (`WEMapState` from
`./WEMapState`, outside the repository slice); this file only constructs it
from a received `WEMap`. -/
structure WEMapState where
  source : WEMap
deriving DecidableEq

/-- Fresh map state built from a received map (`new WEMapState(map)`). -/
def WEMapState.ofMap (m : WEMap) : WEMapState :=
  ⟨m⟩

/-- Modelled from the spec: the input controller (`../InputController`, outside
the repository slice) as far as this file drives it: whether it currently has
full control of input. -/
structure InputController where
  fullControl : Bool
deriving DecidableEq

/-- `inputController.enterFullControl()`. -/
def InputController.enterFullControl (c : InputController) : InputController :=
  { c with fullControl := true }

/-- `inputController.exitFullControl()`. -/
def InputController.exitFullControl (c : InputController) : InputController :=
  { c with fullControl := false }

/-- Externally visible effects of a store operation, listed in the order the
source performs them: game-client events sent via `sendGameClientEvent`,
API-transport messages via `sendApiMessage`, event-bus emissions, shell
personality switches, the edit-history reset, the archetypes-collection
refresh request, the input controller's `destroy()` call, and editor-control
updates forwarded to the host. -/
inductive Effect where
  | gameClientEvent (eventName : String) (payload : JVal)
  | apiStartRequest (mapPath : String)
  | apiStopMessage
  | selectionChanged (s : WESelection)
  | gizmoSelectChanged (b : Bool)
  | personalityChanged (p : ShellPersonality)
  | historyReset
  | archetypesRefreshRequested
  | controllerDestroyed
  | worldEditorControlsSet (select : Bool) (m : EditorMode) (lcl : Bool)

/-- Whether an effect list contains a message to the game client. -/
def sendsToGameClient (evs : List Effect) : Bool :=
  evs.any fun e =>
    match e with
    | Effect.gameClientEvent _ _ => true
    | _ => false

/-- The observable fields of the `WEState` store (class `WEState` in the
source).  The `introSeen` local-storage value and `forceShowIntro` flag are
omitted: no claim concerns the intro dialog. -/
structure WEStateData where
  inputController : Option InputController
  ready : Bool
  mode : WEMode
  editorSelect : Bool
  editorMode : EditorMode
  editorLocal : Bool
  selection : WESelection
  map : Option WEMapState
  mapEntry : Option FilesystemEntry
deriving DecidableEq

/-- The store's initial field values (field initializers plus the constructor,
which sets `ready` under the `WORLD_EDITOR_UI_ONLY` debug toggle). -/
def initialState (uiOnly : Bool) : WEStateData :=
  { inputController := Option.none
    ready := uiOnly
    mode := WEMode.EDITOR
    editorSelect := false
    editorMode := EditorMode.TRANSLATE
    editorLocal := false
    selection := WESelection.none
    map := Option.none
    mapEntry := Option.none }

/-- `updateSelection` (source lines 330-333): store the selection and emit the
`selectionChanged` event. -/
def updateSelection (st : WEStateData) (s : WESelection) : WEStateData × List Effect :=
  ({ st with selection := s }, [Effect.selectionChanged s])

/-- `setEditorSelection` (source lines 301-305): `updateSelection` first, then
send the `we:selection` game-client event whose payload is
`JSON.stringify(selection)`. -/
def setEditorSelection (st : WEStateData) (s : WESelection) : WEStateData × List Effect :=
  let r := updateSelection st s
  (r.1, r.2 ++ [Effect.gameClientEvent "we:selection" (jsStringify (selectionToJVal s))])

/-- `clearEditorSelection` (source lines 307-309): `setEditorSelection` of the
`NONE` selection. -/
def clearEditorSelection (st : WEStateData) : WEStateData × List Effect :=
  setEditorSelection st WESelection.none

/-- The `Events.additionDeleted` listener registered in `bindEvents` (source
lines 117-121): clear the editor selection when the current selection is the
deleted addition. -/
def additionDeletedListener (st : WEStateData) (deletedId : String) : WEStateData × List Effect :=
  match st.selection with
  | WESelection.addition id =>
      if id = deletedId then clearEditorSelection st else (st, [])
  | _ => (st, [])

/-- The `we:ready` window-event listener registered in `bindEvents` (source
lines 100-106): set `ready` and request an archetypes-collection refresh when
`GameState.archetypesCollectionReady` (passed here as a parameter, the
`GameState` store being outside the repository slice) does not already hold. -/
def weReadyListener (archetypesCollectionReady : Bool) (st : WEStateData) :
    WEStateData × List Effect :=
  ({ st with ready := true },
   if archetypesCollectionReady then [] else [Effect.archetypesRefreshRequested])

/-- The `worldEditorApi.mapLoaded` API-message listener registered in
`bindEvents` (source lines 113-115): replace `map` with a fresh map state built
from the received map. -/
def mapLoadedListener (st : WEStateData) (m : WEMap) : WEStateData × List Effect :=
  ({ st with map := some (WEMapState.ofMap m) }, [])

/-- `enterPlaytestMode` (source lines 188-197): return unchanged when already
in playtest mode; otherwise send `we:enterPlaytestMode`, set the mode and put
the input controller into full control.  `Option.none` models the `TypeError`
thrown when `this.inputController` is `undefined` at that last step. -/
def enterPlaytestMode (st : WEStateData) : Option (WEStateData × List Effect) :=
  if st.mode = WEMode.PLAYTEST then
    some (st, [])
  else
    match st.inputController with
    | some c =>
        some ({ st with mode := WEMode.PLAYTEST,
                        inputController := some (InputController.enterFullControl c) },
              [Effect.gameClientEvent "we:enterPlaytestMode" (JVal.str "")])
    | Option.none => Option.none

/-- `enterEditorMode` (source lines 199-207): return unchanged when already in
editor mode; otherwise send `we:exitPlaytestMode` with payload `'true'` exactly
when `relative` holds, set the mode and take the input controller out of full
control.  `Option.none` models the `TypeError` thrown when
`this.inputController` is `undefined` at that last step. -/
def enterEditorMode (st : WEStateData) (relative : Bool) : Option (WEStateData × List Effect) :=
  if st.mode = WEMode.EDITOR then
    some (st, [])
  else
    match st.inputController with
    | some c =>
        some ({ st with mode := WEMode.EDITOR,
                        inputController := some (InputController.exitFullControl c) },
              [Effect.gameClientEvent "we:exitPlaytestMode"
                 (JVal.str (if relative then "true" else ""))])
    | Option.none => Option.none

/-- The world-editor camera tuple (`WECam` from
`backend/world-editor/world-editor-types`, outside the repository slice;
the spec calls it a camera tuple). -/
abbrev WECam := List Int

/-- `setCam` (source lines 217-219): send `we:setCam` with payload
`JSON.stringify(cam)`. -/
def setCam (st : WEStateData) (cam : List Int) : WEStateData × List Effect :=
  (st, [Effect.gameClientEvent "we:setCam" (jsStringify (JVal.arr (cam.map JVal.num)))])

/-- `focusInView` (source lines 221-226): send `we:focusInView` with payload
`JSON.stringify(\x7b cam, lookAt \x7d)`. -/
def focusInView (st : WEStateData) (cam : WECam) (lookAt : Int × Int × Int) :
    WEStateData × List Effect :=
  (st, [Effect.gameClientEvent "we:focusInView"
          (jsStringify (JVal.obj
            [("cam", JVal.arr (cam.map JVal.num)),
             ("lookAt", JVal.arr [JVal.num lookAt.1, JVal.num lookAt.2.1,
                                  JVal.num lookAt.2.2])]))])

/-- `openMap` (source lines 228-239): drop the current map state, record the
entry, reset the edit history, send the world-editor start request carrying the
entry's path over the API transport, and switch the shell personality to
`WORLD_EDITOR`. -/
def openMap (st : WEStateData) (entry : FilesystemEntry) : WEStateData × List Effect :=
  ({ st with map := Option.none, mapEntry := some entry },
   [Effect.historyReset,
    Effect.apiStartRequest entry.path,
    Effect.personalityChanged ShellPersonality.WORLD_EDITOR])

/-- `closeMap` (source lines 241-252): clear `ready` unless the
`WORLD_EDITOR_UI_ONLY` debug toggle (passed here as a parameter, the toggle
constant being outside the repository slice) is set, drop the map state and
entry, send the world-editor stop message, and switch the shell personality to
`THEIA`. -/
def closeMap (uiOnly : Bool) (st : WEStateData) : WEStateData × List Effect :=
  ({ st with ready := if uiOnly then st.ready else false,
             map := Option.none,
             mapEntry := Option.none },
   [Effect.apiStopMessage,
    Effect.personalityChanged ShellPersonality.THEIA])

/-- `isAdditionSelected` (source lines 285-291): false unless the selection is
an addition whose `id` strictly equals the argument. -/
def isAdditionSelected (st : WEStateData) (additionId : String) : Bool :=
  match st.selection with
  | WESelection.addition id => id == additionId
  | _ => false

/-- `isPatchSelected` (source lines 293-299): false unless the selection is a
patch whose `mapdata` and `entity` strictly equal `parseInt` of the respective
string arguments. -/
def isPatchSelected (st : WEStateData) (mapdata entity : String) : Bool :=
  match st.selection with
  | WESelection.patch md en =>
      jsStrictEq md (jsParseInt mapdata) && jsStrictEq en (jsParseInt entity)
  | _ => false

/-- `createInputController` (source lines 311-319): install a fresh input
controller (the container ref and the callbacks registered on the controller
are outside the repository slice and carry no store state). -/
def createInputController (st : WEStateData) : WEStateData × List Effect :=
  ({ st with inputController := some { fullControl := false } }, [])

/-- `destroyInputController` (source lines 321-328): reset the selection
locally through `updateSelection`, then, when a controller is installed,
destroy it and unset the field. -/
def destroyInputController (st : WEStateData) : WEStateData × List Effect :=
  let r := updateSelection st WESelection.none
  match r.1.inputController with
  | some _ =>
      ({ r.1 with inputController := Option.none }, r.2 ++ [Effect.controllerDestroyed])
  | Option.none => (r.1, r.2)

/-- A concrete store state in editor mode with an installed input controller. -/
def stEditor : WEStateData :=
  { initialState false with inputController := some { fullControl := false } }

/-- A concrete store state in playtest mode with an installed input controller
that has full control. -/
def stPlaytest : WEStateData :=
  { stEditor with mode := WEMode.PLAYTEST, inputController := some { fullControl := true } }

/-- A concrete store state whose selection is the addition `"obj1"`. -/
def stAddition : WEStateData :=
  { stEditor with selection := WESelection.addition "obj1" }

/-- A concrete store state whose selection is the patch `(3, 7)`. -/
def stPatch : WEStateData :=
  { stEditor with selection := WESelection.patch 3 7 }

/-- The state `enterPlaytestMode` produces from `stEditor`. -/
def stAfterPlaytest : WEStateData :=
  { stEditor with mode := WEMode.PLAYTEST, inputController := some { fullControl := true } }

/-- Any state `enterPlaytestMode` returns is in playtest mode. -/
theorem enterPlaytestMode_mode_eq {st st2 : WEStateData} {evs : List Effect}
    (h : enterPlaytestMode st = some (st2, evs)) : st2.mode = WEMode.PLAYTEST := by
  unfold enterPlaytestMode at h
  split at h
  · rename_i hm
    simp only [Option.some.injEq, Prod.mk.injEq] at h
    rw [← h.1]
    exact hm
  · rename_i hm
    rcases hc : st.inputController with _ | c <;> rw [hc] at h
    · simp at h
    · simp only [Option.some.injEq, Prod.mk.injEq] at h
      rw [← h.1]

/-- Any state `enterEditorMode` returns is in editor mode. -/
theorem enterEditorMode_mode_eq {st st2 : WEStateData} {evs : List Effect} {rel : Bool}
    (h : enterEditorMode st rel = some (st2, evs)) : st2.mode = WEMode.EDITOR := by
  unfold enterEditorMode at h
  split at h
  · rename_i hm
    simp only [Option.some.injEq, Prod.mk.injEq] at h
    rw [← h.1]
    exact hm
  · rename_i hm
    rcases hc : st.inputController with _ | c <;> rw [hc] at h
    · simp at h
    · simp only [Option.some.injEq, Prod.mk.injEq] at h
      rw [← h.1]

/-- C1: the selection is a tagged variant over none / addition / patch whose
optional fields are meaningful only for the matching tag: `isAdditionSelected`
holds exactly when the selection is an addition with the given id,
`isPatchSelected` holds exactly when the selection is a patch whose `mapdata`
and `entity` equal the `parseInt`-parsed string arguments, and on the `NONE`
selection both predicates are false. -/
theorem C1_selection_predicates (st : WEStateData) (additionId mapdata entity : String) :
    (isAdditionSelected st additionId = true ↔
       st.selection.selType = WESelectionType.ADDITION ∧
       st.selection.idOf = some additionId) ∧
    (isPatchSelected st mapdata entity = true ↔
       st.selection.selType = WESelectionType.PATCH ∧
       st.selection.mapdataOf = jsParseInt mapdata ∧
       st.selection.entityOf = jsParseInt entity) ∧
    (st.selection.selType = WESelectionType.NONE →
       isAdditionSelected st additionId = false ∧ isPatchSelected st mapdata entity = false) := by
  refine ⟨?_, ?_, ?_⟩
  · rcases hsel : st.selection with _ | id | ⟨md, en⟩ <;>
      simp [isAdditionSelected, WESelection.selType, WESelection.idOf, hsel]
  · rcases hsel : st.selection with _ | id | ⟨md, en⟩ <;>
      simp [isPatchSelected, WESelection.selType, WESelection.mapdataOf,
            WESelection.entityOf, hsel]
    rcases hp : jsParseInt mapdata with _ | k <;>
      rcases hq : jsParseInt entity with _ | l <;>
        simp [jsStrictEq]
  · intro h
    rcases hsel : st.selection with _ | id | ⟨md, en⟩ <;>
      simp_all [isAdditionSelected, isPatchSelected, WESelection.selType, hsel]

/-- Witness for C1 at the concrete patch state `stPatch` and arguments
`"obj1"`, `" 3"`, `"7"`. -/
theorem C1_witness :
    (isAdditionSelected stPatch "obj1" = true ↔
       stPatch.selection.selType = WESelectionType.ADDITION ∧
       stPatch.selection.idOf = some "obj1") ∧
    (isPatchSelected stPatch " 3" "7" = true ↔
       stPatch.selection.selType = WESelectionType.PATCH ∧
       stPatch.selection.mapdataOf = jsParseInt " 3" ∧
       stPatch.selection.entityOf = jsParseInt "7") ∧
    (stPatch.selection.selType = WESelectionType.NONE →
       isAdditionSelected stPatch "obj1" = false ∧ isPatchSelected stPatch " 3" "7" = false) :=
  C1_selection_predicates stPatch "obj1" " 3" "7"

/-- C2: from editor mode, `enterPlaytestMode` sends the `we:enterPlaytestMode`
game-client event, sets the mode to `PLAYTEST` and puts the input controller
into full control; from playtest mode, `enterEditorMode` sends
`we:exitPlaytestMode` with payload `'true'` exactly when `relative` holds, sets
the mode to `EDITOR` and takes the controller out of full control. -/
theorem C2_playtest_mode_toggle (st st2 : WEStateData) (c c2 : InputController) (rel : Bool)
    (h1 : st.mode = WEMode.EDITOR) (h2 : st.inputController = some c)
    (h3 : st2.mode = WEMode.PLAYTEST) (h4 : st2.inputController = some c2) :
    enterPlaytestMode st =
      some ({ st with mode := WEMode.PLAYTEST, inputController := some { fullControl := true } },
            [Effect.gameClientEvent "we:enterPlaytestMode" (JVal.str "")]) ∧
    enterEditorMode st2 rel =
      some ({ st2 with mode := WEMode.EDITOR, inputController := some { fullControl := false } },
            [Effect.gameClientEvent "we:exitPlaytestMode"
               (JVal.str (if rel then "true" else ""))]) := by
  constructor
  · simp [enterPlaytestMode, h1, h2, InputController.enterFullControl]
  · simp [enterEditorMode, h3, h4, InputController.exitFullControl]

/-- Witness for C2 at the concrete states `stEditor` and `stPlaytest`. -/
theorem C2_witness :
    enterPlaytestMode stEditor =
      some ({ stEditor with mode := WEMode.PLAYTEST,
                            inputController := some { fullControl := true } },
            [Effect.gameClientEvent "we:enterPlaytestMode" (JVal.str "")]) ∧
    enterEditorMode stPlaytest true =
      some ({ stPlaytest with mode := WEMode.EDITOR,
                              inputController := some { fullControl := false } },
            [Effect.gameClientEvent "we:exitPlaytestMode"
               (JVal.str (if true then "true" else ""))]) :=
  C2_playtest_mode_toggle stEditor stPlaytest { fullControl := false } { fullControl := true }
    true rfl rfl rfl rfl

/-- C3: `setEditorSelection` first stores the selection and emits the
`selectionChanged` event (through `updateSelection`), then sends the
`we:selection` game-client event whose payload is the JSON serialization of the
selection; `clearEditorSelection` is exactly `setEditorSelection` of the `NONE`
selection. -/
theorem C3_selection_bridge (st : WEStateData) (s : WESelection) :
    updateSelection st s = ({ st with selection := s }, [Effect.selectionChanged s]) ∧
    setEditorSelection st s =
      ({ st with selection := s },
       [Effect.selectionChanged s,
        Effect.gameClientEvent "we:selection" (jsStringify (selectionToJVal s))]) ∧
    (setEditorSelection st s).1 = (updateSelection st s).1 ∧
    (setEditorSelection st s).2 =
      (updateSelection st s).2 ++
        [Effect.gameClientEvent "we:selection" (jsStringify (selectionToJVal s))] ∧
    clearEditorSelection st = setEditorSelection st WESelection.none :=
  ⟨rfl, rfl, rfl, rfl, rfl⟩

/-- C4: after the `additionDeleted` event fires with some id, the selection
never still refers to that addition: a matching addition selection is cleared
through `clearEditorSelection` (which also notifies the game client), every
other selection is left unchanged with no effect. -/
theorem C4_addition_deleted (st : WEStateData) (deletedId : String) :
    (st.selection = WESelection.addition deletedId →
       additionDeletedListener st deletedId = clearEditorSelection st ∧
       (additionDeletedListener st deletedId).1.selection = WESelection.none ∧
       Effect.gameClientEvent "we:selection" (jsStringify (selectionToJVal WESelection.none)) ∈
         (additionDeletedListener st deletedId).2) ∧
    (st.selection ≠ WESelection.addition deletedId →
       additionDeletedListener st deletedId = (st, [])) := by
  constructor
  · intro h
    simp [additionDeletedListener, h, clearEditorSelection, setEditorSelection, updateSelection]
  · intro h
    rcases hsel : st.selection with _ | id | ⟨md, en⟩
    · simp [additionDeletedListener, hsel]
    · have hne : id ≠ deletedId := fun e => h (by rw [hsel, e])
      simp [additionDeletedListener, hsel, hne]
    · simp [additionDeletedListener, hsel]

/-- Witness for C4 at the concrete state `stAddition`, whose selection is the
addition `"obj1"`, when the deleted id is `"obj1"`. -/
theorem C4_witness :
    additionDeletedListener stAddition "obj1" = clearEditorSelection stAddition ∧
    (additionDeletedListener stAddition "obj1").1.selection = WESelection.none ∧
    Effect.gameClientEvent "we:selection" (jsStringify (selectionToJVal WESelection.none)) ∈
      (additionDeletedListener stAddition "obj1").2 :=
  (C4_addition_deleted stAddition "obj1").1 rfl

/-- C5: `openMap` drops the map state, records the entry, resets the edit
history, sends the world-editor start request carrying the entry's path over
the API transport and switches the shell personality to `WORLD_EDITOR`;
`closeMap` clears `ready` (except under the `WORLD_EDITOR_UI_ONLY` debug
toggle), drops the map state and entry, sends the world-editor stop message and
switches the shell personality to `THEIA`. -/
theorem C5_map_lifecycle (st : WEStateData) (entry : FilesystemEntry) (uiOnly : Bool) :
    openMap st entry =
      ({ st with map := Option.none, mapEntry := some entry },
       [Effect.historyReset,
        Effect.apiStartRequest entry.path,
        Effect.personalityChanged ShellPersonality.WORLD_EDITOR]) ∧
    closeMap uiOnly st =
      ({ st with ready := if uiOnly then st.ready else false,
                 map := Option.none,
                 mapEntry := Option.none },
       [Effect.apiStopMessage,
        Effect.personalityChanged ShellPersonality.THEIA]) ∧
    (closeMap false st).1.ready = false ∧
    (closeMap true st).1.ready = st.ready :=
  ⟨rfl, rfl, rfl, rfl⟩

/-- C6: on the `we:ready` window event the `ready` flag becomes true and the
archetypes-collection refresh is requested exactly when the collection is not
already ready; on the `mapLoaded` API message the `map` field is replaced by a
fresh map state built from the received map. -/
theorem C6_host_event_reactions (st : WEStateData) (archetypesCollectionReady : Bool)
    (m : WEMap) :
    weReadyListener archetypesCollectionReady st =
      ({ st with ready := true },
       if archetypesCollectionReady then [] else [Effect.archetypesRefreshRequested]) ∧
    (weReadyListener archetypesCollectionReady st).1.ready = true ∧
    (Effect.archetypesRefreshRequested ∈ (weReadyListener archetypesCollectionReady st).2 ↔
       archetypesCollectionReady = false) ∧
    mapLoadedListener st m = ({ st with map := some (WEMapState.ofMap m) }, []) := by
  refine ⟨rfl, rfl, ?_, rfl⟩
  cases archetypesCollectionReady <;> simp [weReadyListener]

/-- Witness for C6 at the concrete state `stEditor` with the archetypes
collection not yet ready. -/
theorem C6_witness :
    weReadyListener false stEditor =
      ({ stEditor with ready := true },
       if false then [] else [Effect.archetypesRefreshRequested]) ∧
    (weReadyListener false stEditor).1.ready = true ∧
    (Effect.archetypesRefreshRequested ∈ (weReadyListener false stEditor).2 ↔
       false = false) ∧
    mapLoadedListener stEditor ⟨"payload"⟩ =
      ({ stEditor with map := some (WEMapState.ofMap ⟨"payload"⟩) }, []) :=
  C6_host_event_reactions stEditor false ⟨"payload"⟩

/-- The reading of the dispatch path asserted by claim C7: outgoing payloads
are forwarded through the host transport exactly as this file received them,
with no JSON serialization performed by the file itself, so `setCam` would
dispatch the received camera value rather than a serialized string. -/
def dispatchForwardsPayloadsAsReceived : Prop :=
  ∀ (st : WEStateData) (cam : List Int),
    (setCam st cam).2 =
      [Effect.gameClientEvent "we:setCam" (JVal.arr (cam.map JVal.num))]

/-- C7 fails on the code: `setCam` does not forward the received camera value;
it dispatches the JSON string the file itself produces with `JSON.stringify`
(at camera `[1, 2]` the dispatched payload is the string value, not the
received array). -/
theorem C7_counterexample : ¬ dispatchForwardsPayloadsAsReceived := by
  intro h
  have h12 := h (initialState false) [1, 2]
  simp [setCam, jsStringify] at h12

/-- C7 amended: every payload this file dispatches to the game client is a
JSON string the file itself produces with `JSON.stringify`: `setCam`,
`focusInView` and `setEditorSelection` serialize their structured arguments and
dispatch the resulting string (concretely, `setCam` at `[1, 2, 3]` dispatches
the five-character string of text `[1,2,3]`). -/
theorem C7_amended_file_serializes (st : WEStateData) (cam : List Int) (c : WECam)
    (lookAt : Int × Int × Int) (s : WESelection) :
    (setCam st cam).2 =
      [Effect.gameClientEvent "we:setCam"
         (JVal.str (JVal.render (JVal.arr (cam.map JVal.num))))] ∧
    (focusInView st c lookAt).2 =
      [Effect.gameClientEvent "we:focusInView"
         (JVal.str (JVal.render (JVal.obj
            [("cam", JVal.arr (c.map JVal.num)),
             ("lookAt", JVal.arr [JVal.num lookAt.1, JVal.num lookAt.2.1,
                                  JVal.num lookAt.2.2])])))] ∧
    (setEditorSelection st s).2 =
      [Effect.selectionChanged s,
       Effect.gameClientEvent "we:selection" (JVal.str (JVal.render (selectionToJVal s)))] ∧
    (setCam st [1, 2, 3]).2 =
      [Effect.gameClientEvent "we:setCam" (JVal.str "[1,2,3]")] := by
  refine ⟨rfl, rfl, rfl, ?_⟩
  have h : JVal.render (JVal.arr [JVal.num 1, JVal.num 2, JVal.num 3]) = "[1,2,3]" := by decide
  simp [setCam, jsStringify, h]

/-- C8 fails on the code: at a concrete camera and state, `setCam` and
`focusInView` leave every store field unchanged, their dispatched effects do
not depend on the store (two different states give the same effect list), and
the only effect is forwarding the serialized camera payload to the host game
process; the store holds no camera tuple that these operations read or
write. -/
theorem C8_counterexample :
    (setCam stEditor [1, 2, 3]).1 = stEditor ∧
    (setCam stEditor [1, 2, 3]).2 = (setCam stPlaytest [1, 2, 3]).2 ∧
    (setCam stEditor [1, 2, 3]).2 =
      [Effect.gameClientEvent "we:setCam" (JVal.str "[1,2,3]")] ∧
    (focusInView stEditor [0, 1, 2, 3, 4] (4, 5, 6)).1 = stEditor ∧
    (focusInView stEditor [0, 1, 2, 3, 4] (4, 5, 6)).2 =
      (focusInView stPlaytest [0, 1, 2, 3, 4] (4, 5, 6)).2 := by
  refine ⟨rfl, rfl, ?_, rfl, rfl⟩
  have h : JVal.render (JVal.arr [JVal.num 1, JVal.num 2, JVal.num 3]) = "[1,2,3]" := by decide
  simp [setCam, jsStringify, h]

/-- C8 amended: the store holds no camera state; `setCam` and `focusInView`
leave every store field unchanged, read no store field (their effects are the
same from any two states), and only forward the serialized camera payload to
the host game process. -/
theorem C8_amended_cam_ops_forward_only (st st2 : WEStateData) (cam : List Int) (c : WECam)
    (lookAt : Int × Int × Int) :
    (setCam st cam).1 = st ∧
    (setCam st cam).2 = (setCam st2 cam).2 ∧
    sendsToGameClient (setCam st cam).2 = true ∧
    (focusInView st c lookAt).1 = st ∧
    (focusInView st c lookAt).2 = (focusInView st2 c lookAt).2 ∧
    sendsToGameClient (focusInView st c lookAt).2 = true :=
  ⟨rfl, rfl, rfl, rfl, rfl, rfl⟩

/-- C9: mode entry is guarded and idempotent: entering the mode the store is
already in changes no state and sends no game-client event, and a second call
right after a successful transition changes nothing and emits no duplicate
event. -/
theorem C9_mode_entry_guarded (st st2 : WEStateData) (evs : List Effect) (rel rel2 : Bool) :
    (st.mode = WEMode.PLAYTEST → enterPlaytestMode st = some (st, [])) ∧
    (st.mode = WEMode.EDITOR → enterEditorMode st rel = some (st, [])) ∧
    (enterPlaytestMode st = some (st2, evs) → enterPlaytestMode st2 = some (st2, [])) ∧
    (enterEditorMode st rel = some (st2, evs) → enterEditorMode st2 rel2 = some (st2, [])) := by
  refine ⟨?_, ?_, ?_, ?_⟩
  · intro h
    simp [enterPlaytestMode, h]
  · intro h
    simp [enterEditorMode, h]
  · intro h
    simp [enterPlaytestMode, enterPlaytestMode_mode_eq h]
  · intro h
    simp [enterEditorMode, enterEditorMode_mode_eq h]

/-- Witness for C9: the guard at the concrete states `stPlaytest` and
`stEditor`, and the no-op second call after the transition out of
`stEditor`. -/
theorem C9_witness :
    enterPlaytestMode stPlaytest = some (stPlaytest, []) ∧
    enterEditorMode stEditor false = some (stEditor, []) ∧
    enterPlaytestMode stAfterPlaytest = some (stAfterPlaytest, []) :=
  ⟨(C9_mode_entry_guarded stPlaytest stPlaytest [] false false).1 rfl,
   (C9_mode_entry_guarded stEditor stEditor [] false false).2.1 rfl,
   (C9_mode_entry_guarded stEditor stAfterPlaytest
      [Effect.gameClientEvent "we:enterPlaytestMode" (JVal.str "")] false false).2.2.1 rfl⟩

/-- C10: `destroyInputController` resets the selection to `NONE` locally
(emitting `selectionChanged`) but, unlike `clearEditorSelection`, sends nothing
to the game client; it leaves every other store field unchanged, unsets the
controller (after its `destroy()` call when one was installed), and a fresh
`createInputController` afterwards installs a new controller. -/
theorem C10_destroy_input_controller (st : WEStateData) :
    (destroyInputController st).1 =
      { st with selection := WESelection.none, inputController := Option.none } ∧
    ((destroyInputController st).2 = [Effect.selectionChanged WESelection.none] ∨
     (destroyInputController st).2 =
       [Effect.selectionChanged WESelection.none, Effect.controllerDestroyed]) ∧
    sendsToGameClient (destroyInputController st).2 = false ∧
    sendsToGameClient (clearEditorSelection st).2 = true ∧
    (destroyInputController st).1.mode = st.mode ∧
    (destroyInputController st).1.editorMode = st.editorMode ∧
    (destroyInputController st).1.editorLocal = st.editorLocal ∧
    (destroyInputController st).1.editorSelect = st.editorSelect ∧
    (destroyInputController st).1.map = st.map ∧
    (destroyInputController st).1.ready = st.ready ∧
    (destroyInputController st).1.inputController = Option.none ∧
    (createInputController (destroyInputController st).1).1.inputController =
      some { fullControl := false } := by
  rcases hc : st.inputController with _ | c <;>
    simp [destroyInputController, updateSelection, createInputController,
          clearEditorSelection, setEditorSelection, sendsToGameClient, hc]
